import Mathlib

/-!
Shallow embedding of the spark-graph HTTP service (`src/main.py`) and proofs
about its specification claims.

Modelling conventions:
* Python `float` prices are modelled as `ℚ` (the arithmetic in the source is
  exact field arithmetic on the values involved).
* Python `datetime` values are modelled as integer Unix seconds (`ℤ`);
  `timedelta(hours=1)` is `3600`, `timedelta(days=1)` is `86400`, etc.
* Fallible Python code is modelled with `Option`/`Except`; a caught exception
  corresponds to the `none`/`.error` branch.
* Environment variables are `Option String` (`none` = unset); Python's
  truthiness test `if not v` holds for `none` and `some ""`.
-/

namespace SparkGraph

/-! ## Authenticator (`verify_basic_auth`, main.py lines 21-33) -/

/-- Value of a character in the standard base64 alphabet
(`A`-`Z`, `a`-`z`, `0`-`9`, `+`, `/`), or `none` for any other character. -/
def b64val (c : Char) : Option Nat :=
  if 'A' ≤ c ∧ c ≤ 'Z' then some (c.toNat - 65)
  else if 'a' ≤ c ∧ c ≤ 'z' then some (c.toNat - 97 + 26)
  else if '0' ≤ c ∧ c ≤ '9' then some (c.toNat - 48 + 52)
  else if c = '+' then some 62
  else if c = '/' then some 63
  else none

/-- The decode loop of CPython `binascii.a2b_base64` in non-strict mode
(what `base64.b64decode` with `validate=False` calls), one character at a
time.  State: the quad position (how many 6-bit values of the current group
have been seen), the pending bits of the previous value, and the running
pad count.  Characters outside the alphabet are skipped; a `=` is ignored
before two data characters of the current group have been seen, and ends
the decode as soon as the pads complete a group of four (so excess padding
and data after the padding are tolerated, exactly as in CPython); a data
character resets the pad count.  A trailing incomplete group is an error
(`none`): Python reports `Invalid base64-encoded string` when one data
character of a group remains and `Incorrect padding` otherwise. -/
def a2b_base64_loop : List Char → ℕ → ℕ → ℕ → Option (List Nat)
  | [], 0, _, _ => some []
  | [], _, _, _ => none
  | ch :: rest, qp, left, pads =>
    if ch = '=' then
      if 2 ≤ qp ∧ 4 ≤ qp + (pads + 1) then some []
      else if 2 ≤ qp then a2b_base64_loop rest qp left (pads + 1)
      else a2b_base64_loop rest qp left pads
    else
      match b64val ch with
      | none => a2b_base64_loop rest qp left pads
      | some v =>
        match qp with
        | 0 => a2b_base64_loop rest 1 v 0
        | 1 => (a2b_base64_loop rest 2 (v % 16) 0).map fun bs => (left * 4 + v / 16) :: bs
        | 2 => (a2b_base64_loop rest 3 (v % 4) 0).map fun bs => (left * 16 + v / 4) :: bs
        | _ => (a2b_base64_loop rest 0 0 0).map fun bs => (left * 64 + v) :: bs

/-- Model of Python `base64.b64decode` (with `validate=False`) applied to a
`str` argument: the argument must be pure ASCII (Python first does
`s.encode('ascii')`), then `binascii.a2b_base64` decodes it leniently per
`a2b_base64_loop`. -/
def b64decodeBytes (s : List Char) : Option (List Nat) :=
  if s.any (fun c => 128 ≤ c.toNat) then none
  else a2b_base64_loop s 0 0 0

/-- Model of Python `bytes.decode('utf-8')`: strict UTF-8 decoding of a byte
list, rejecting malformed sequences, overlong encodings, surrogates and
code points beyond `0x10FFFF`. -/
def utf8decode : List Nat → Option (List Char)
  | [] => some []
  | b :: rest =>
    if b < 0x80 then (utf8decode rest).map (fun cs => Char.ofNat b :: cs)
    else if b < 0xC0 then none
    else if b < 0xE0 then
      match rest with
      | b1 :: rest1 =>
        if 0x80 ≤ b1 ∧ b1 < 0xC0 then
          let c := (b - 0xC0) * 64 + (b1 - 0x80)
          if c < 0x80 then none
          else (utf8decode rest1).map (fun cs => Char.ofNat c :: cs)
        else none
      | [] => none
    else if b < 0xF0 then
      match rest with
      | b1 :: b2 :: rest2 =>
        if (0x80 ≤ b1 ∧ b1 < 0xC0) ∧ (0x80 ≤ b2 ∧ b2 < 0xC0) then
          let c := (b - 0xE0) * 4096 + (b1 - 0x80) * 64 + (b2 - 0x80)
          if c < 0x800 ∨ (0xD800 ≤ c ∧ c ≤ 0xDFFF) then none
          else (utf8decode rest2).map (fun cs => Char.ofNat c :: cs)
        else none
      | _ => none
    else if b < 0xF8 then
      match rest with
      | b1 :: b2 :: b3 :: rest3 =>
        if (0x80 ≤ b1 ∧ b1 < 0xC0) ∧ (0x80 ≤ b2 ∧ b2 < 0xC0) ∧ (0x80 ≤ b3 ∧ b3 < 0xC0) then
          let c := (b - 0xF0) * 262144 + (b1 - 0x80) * 4096 + (b2 - 0x80) * 64 + (b3 - 0x80)
          if c < 0x10000 ∨ 0x110000 ≤ c then none
          else (utf8decode rest3).map (fun cs => Char.ofNat c :: cs)
        else none
      | _ => none
    else none

/-- Model of `base64.b64decode(s).decode('utf-8')` (main.py line 29):
`none` when either step raises. -/
def b64decodeUtf8 (s : String) : Option String :=
  (b64decodeBytes s.toList).bind fun bytes =>
    (utf8decode bytes).map fun cs => String.mk cs

/-- `splitColonOnce l` splits a character list at its first `:`; `none` when
no colon occurs.  Models the list-shape of Python `s.split(':', 1)`: a
one-element result (`none` here) versus the pair of pieces around the first
colon. -/
def splitColonOnce : List Char → Option (List Char × List Char)
  | [] => none
  | c :: cs =>
      if c = ':' then some ([], cs)
      else (splitColonOnce cs).map fun p => (c :: p.1, p.2)

/-- Python `credentials.split(':', 1)` followed by the two-variable unpacking
`username, password = ...` (main.py line 30): `none` models the `ValueError`
raised when the string has no colon. -/
def py_split_colon_1 (s : String) : Option (String × String) :=
  (splitColonOnce s.toList).map fun p => (String.mk p.1, String.mk p.2)

/-- The credential comparison of main.py lines 30-31: split the decoded token
at the first colon and compare the pieces with the configured username and
password.  `envPassword` is the raw environment value; Python's
`password == None` comparison is always `False`. -/
def check_credentials (credentials : String) (envUsername : String)
    (envPassword : Option String) : Bool :=
  match py_split_colon_1 credentials with
  | none => false
  | some (u, p) =>
      u == envUsername && (match envPassword with
        | none => false
        | some pw => p == pw)

/-- Python `s.startswith(pre)`: character-list prefix test. -/
def py_startswith (s pre : String) : Bool :=
  s.toList.take pre.toList.length == pre.toList

/-- Python slicing `s[n:]`: drop the first `n` characters. -/
def py_drop (s : String) (n : ℕ) : String := String.mk (s.toList.drop n)

/-- `verify_basic_auth` (main.py lines 21-33): the `Authorization` header is
`none` when absent; any exception inside the `try` block yields `false`. -/
def verify_basic_auth (authHeader : Option String) (envUsername : String)
    (envPassword : Option String) : Bool :=
  match authHeader with
  | none => false
  | some h =>
    if ¬ py_startswith h "Basic " then false
    else
      match b64decodeUtf8 (py_drop h 6) with
      | none => false
      | some credentials => check_credentials credentials envUsername envPassword

/-! ## Window resolver (`get_duration_params`, main.py lines 36-66) -/

inductive Timespan
  | minute
  | hour
  | day
deriving DecidableEq, Repr

/-- The `duration_map` dictionary (main.py lines 40-45), with the
`timedelta` spans expressed in seconds. -/
def duration_map (d : String) : Option ℤ :=
  if d = "hour" then some 3600
  else if d = "day" then some 86400
  else if d = "week" then some 604800
  else if d = "month" then some (30 * 86400)
  else none

/-- `get_duration_params` (main.py lines 36-66).  `now` models
`datetime.now()`; `.error` models the raised `ValueError`. -/
def get_duration_params (now : ℤ) (duration : String) :
    Except String (ℤ × ℤ × Timespan × ℕ) :=
  match duration_map duration with
  | none => .error ("Invalid duration: " ++ duration)
  | some span =>
    let startDate := now - span
    let tm : Timespan × ℕ :=
      if duration = "hour" then (.minute, 1)
      else if duration = "day" then (.minute, 5)
      else if duration = "week" then (.hour, 1)
      else (.day, 1)
    .ok (startDate, now, tm.1, tm.2)

/-! ## Request parameter parsing (`generate_spark_graph`, lines 283-300) -/

/-- Python `str.lower()` (ASCII case, which covers every string the handler
compares against). -/
def py_lower (s : String) : String := String.mk (s.toList.map Char.toLower)

/-- Python `str.upper()` (ASCII case). -/
def py_upper (s : String) : String := String.mk (s.toList.map Char.toUpper)

/-- The whitespace `int()` strips, within ASCII: tab through carriage
return (0x09-0x0D), space, and the separator controls 0x1C-0x1F. -/
def py_isspace (c : Char) : Bool :=
  (9 ≤ c.toNat && c.toNat ≤ 13) || c = ' ' || (28 ≤ c.toNat && c.toNat ≤ 31)

/-- Python `str.strip()` as `int()` applies it: remove surrounding
whitespace. -/
def py_strip_chars (l : List Char) : List Char :=
  ((l.dropWhile py_isspace).reverse.dropWhile py_isspace).reverse

/-- Continue a digit run in which single underscores may separate digits
(Python digit grouping, `int('4_80') = 480`): an underscore must be
followed by a digit, so trailing and doubled underscores are invalid. -/
def py_digits_core : List Char → ℤ → Option ℤ
  | [], acc => some acc
  | '_' :: rest, acc =>
    match rest with
    | c :: rest2 =>
        if c.isDigit then py_digits_core rest2 (acc * 10 + ((c.toNat - 48 : ℕ) : ℤ))
        else none
    | [] => none
  | c :: rest, acc =>
      if c.isDigit then py_digits_core rest (acc * 10 + ((c.toNat - 48 : ℕ) : ℤ))
      else none

/-- Value of a digit run: it must start with a digit; underscores are
allowed only between digits. -/
def py_digits_val : List Char → Option ℤ
  | [] => none
  | c :: rest =>
      if c.isDigit then py_digits_core rest ((c.toNat - 48 : ℕ) : ℤ)
      else none

/-- Python `int(s)` on a decimal string: surrounding whitespace is
stripped, an optional sign precedes the digits, and single underscores may
group digits; anything else raises `ValueError` (`none` here).  Faithful
for ASCII strings; the non-ASCII decimal digits (Unicode category Nd) that
`int()` also accepts are outside the model, so unparsability statements are
made for ASCII inputs. -/
def py_int (s : String) : Option ℤ :=
  match py_strip_chars s.toList with
  | '+' :: ds => py_digits_val ds
  | '-' :: ds => (py_digits_val ds).map (fun n => -n)
  | ds => py_digits_val ds

/-- Python `s.split(sep)` for a single-character separator: splitting an empty
string gives `[[]]`, and every separator occurrence starts a new piece. -/
def splitOnChar (sep : Char) : List Char → List (List Char)
  | [] => [[]]
  | c :: cs =>
    if c = sep then [] :: splitOnChar sep cs
    else match splitOnChar sep cs with
      | [] => [[c]]
      | g :: gs => (c :: g) :: gs

/-- `width, height = map(int, size_param.split('x'))` (main.py line 293):
`none` models the caught `ValueError`, raised either by `int` or by the
two-variable unpacking when the split does not have exactly two parts. -/
def parse_size (s : String) : Option (ℤ × ℤ) :=
  match (splitOnChar 'x' s.toList).mapM (fun cs => py_int (String.mk cs)) with
  | some [w, h] => some (w, h)
  | _ => none

/-! ## Date formatting (`strftime('%Y-%m-%d')` on Unix-second timestamps) -/

/-- Days-since-epoch to civil `(year, month, day)` (proleptic Gregorian). -/
def civil_from_days (z0 : ℤ) : ℤ × ℤ × ℤ :=
  let z := z0 + 719468
  let era := Int.fdiv z 146097
  let doe := z - era * 146097
  let yoe := Int.fdiv (doe - Int.fdiv doe 1460 + Int.fdiv doe 36524 - Int.fdiv doe 146096) 365
  let y := yoe + era * 400
  let doy := doe - (365 * yoe + Int.fdiv yoe 4 - Int.fdiv yoe 100)
  let mp := Int.fdiv (5 * doy + 2) 153
  let d := doy - Int.fdiv (153 * mp + 2) 5 + 1
  let m := if mp < 10 then mp + 3 else mp - 9
  (if m ≤ 2 then y + 1 else y, m, d)

/-- Zero-pad a day or month number to two digits. -/
def pad2 (n : ℤ) : String := if n < 10 then "0" ++ toString n else toString n

/-- `dt.strftime('%Y-%m-%d')` for a datetime modelled as Unix seconds. -/
def fmt_date (t : ℤ) : String :=
  let c := civil_from_days (Int.fdiv t 86400)
  toString c.1 ++ "-" ++ pad2 c.2.1 ++ "-" ++ pad2 c.2.2

/-! ## Company name resolver (`fetch_company_name`, main.py lines 69-86) -/

/-- The `results` object of the reference-data payload; only `name` is
consumed. -/
structure CompanyResults where
  name : Option String
deriving DecidableEq

/-- Parsed reference-data payload; `results = none` also models a falsy
(empty) results object, since the source only tests truthiness. -/
structure CompanyPayload where
  status : Option String
  results : Option CompanyResults
deriving DecidableEq

/-- `fetch_company_name` (main.py lines 69-86).  `resp = none` models any
exception raised by `requests.get`/`response.json()` (caught and logged);
otherwise the pair is the HTTP status code and the parsed payload.  The
function always returns a string: the upstream name on success, the ticker
itself on any failure. -/
def fetch_company_name (ticker : String) (resp : Option (ℕ × CompanyPayload)) : String :=
  match resp with
  | none => ticker
  | some (code, data) =>
    if code = 200 then
      if data.status = some "OK" ∧ data.results ≠ none then
        match data.results with
        | some r => r.name.getD ticker
        | none => ticker
      else ticker
    else ticker

/-! ## Market data client (`fetch_stock_data`, main.py lines 89-137) -/

/-- A price bar: epoch-millisecond timestamp `t` and close price `c` (the
only fields the program consumes). -/
structure Bar where
  t : ℤ
  c : ℚ
deriving DecidableEq

/-- Parsed aggregates payload, projected onto the fields the source reads. -/
structure AggsPayload where
  status : Option String
  error : Option String
  resultsCount : Option ℕ
  results : Option (List Bar)
deriving DecidableEq

/-- An HTTP response from the aggregates endpoint: status code plus parsed
JSON payload. -/
structure AggsResponse where
  statusCode : ℕ
  payload : AggsPayload
deriving DecidableEq

/-- The aggregates request as issued (URL path pieces plus query
parameters), after the free-tier clamp. -/
structure AggsRequest where
  apiKey : Option String
  ticker : String
  multiplier : ℕ
  timespan : Timespan
  startDate : ℤ
  endDate : ℤ
  sort : String
  limit : ℕ
  adjusted : String
deriving DecidableEq

/-- Lines 93-105 of `fetch_stock_data`: clamp the start date to no earlier
than 730 days before `now` (free-tier limit), then assemble the request with
its fixed query parameters `sort='asc'`, `limit=50000`, `adjusted='true'`. -/
def build_aggs_request (apiKey : Option String) (ticker : String)
    (now startDate endDate : ℤ) (timespan : Timespan) (multiplier : ℕ) : AggsRequest :=
  let twoYearsAgo := now - 730 * 86400
  let clampedStart := if startDate < twoYearsAgo then twoYearsAgo else startDate
  { apiKey := apiKey, ticker := ticker, multiplier := multiplier, timespan := timespan,
    startDate := clampedStart, endDate := endDate,
    sort := "asc", limit := 50000, adjusted := "true" }

/-- `requests.Response.raise_for_status()` raises `HTTPError` exactly for
4xx (client error) and 5xx (server error) status codes. -/
def raise_for_status_raises (code : ℕ) : Bool :=
  (400 ≤ code && code < 500) || (500 ≤ code && code < 600)

/-- A JSON string literal. -/
def json_str (s : String) : String := "\"" ++ s ++ "\""

/-- Serialize an optional string field. -/
def json_opt_str : Option String → String
  | none => "null"
  | some s => json_str s

/-- Serialize one price bar. -/
def json_bar (b : Bar) : String :=
  "\x7b\"t\": " ++ toString b.t ++ ", \"c\": " ++ toString b.c ++ "\x7d"

/-- `json.dumps(data)` on the (projected) aggregates payload, used only for
the diagnostic snippet of the no-results error message. -/
def json_dumps_aggs (p : AggsPayload) : String :=
  "\x7b\"status\": " ++ json_opt_str p.status
  ++ ", \"error\": " ++ json_opt_str p.error
  ++ ", \"resultsCount\": "
      ++ (match p.resultsCount with | none => "null" | some n => toString n)
  ++ ", \"results\": "
      ++ (match p.results with
          | none => "null"
          | some bs => "[" ++ String.intercalate ", " (bs.map json_bar) ++ "]")
  ++ "\x7d"

/-- Python string slicing `s[:n]`: the first `n` characters. -/
def py_slice (s : String) (n : ℕ) : String := String.mk (s.toList.take n)

/-- Exceptions the pipeline stages can raise, matching the handler's three
`except` clauses: `ValueError`, `requests.exceptions.HTTPError` (carrying
`e.response.status_code`), and any other exception (carrying `str(e)`). -/
inductive PyErr
  | valueError (msg : String)
  | httpError (code : ℕ)
  | generic (msg : String)
deriving DecidableEq

/-- `fetch_stock_data` (main.py lines 89-137).  `respE` is the outcome of
`requests.get`: `.error msg` a raised network exception, `.ok r` a received
response.  `now` models the `datetime.now()` call at line 94.  The result
classifies the response exactly as the source does: `raise_for_status` for a
non-200 status (a no-op outside 4xx/5xx), then the payload checks in source
order, else the list of bars. -/
def fetch_stock_data (apiKey : Option String) (ticker : String)
    (now startDate endDate : ℤ) (timespan : Timespan) (multiplier : ℕ)
    (respE : Except String AggsResponse) : Except PyErr (List Bar) :=
  let req := build_aggs_request apiKey ticker now startDate endDate timespan multiplier
  match respE with
  | .error msg => .error (.generic msg)
  | .ok resp =>
    if resp.statusCode ≠ 200 ∧ raise_for_status_raises resp.statusCode then
      .error (.httpError resp.statusCode)
    else
      let data := resp.payload
      if data.status = some "ERROR" then
        .error (.valueError ("Polygon API error: " ++ data.error.getD "Unknown error"))
      else if data.status = some "OK" ∧ data.resultsCount.getD 0 = 0 then
        .error (.valueError ("No data available for " ++ ticker
          ++ ". The market might be closed or this ticker has no recent trading activity."))
      else if data.results.getD [] = [] then
        .error (.valueError ("No data available for " ++ ticker ++ " from "
          ++ fmt_date req.startDate ++ " to " ++ fmt_date req.endDate
          ++ ". Response: " ++ py_slice (json_dumps_aggs data) 200))
      else
        .ok (data.results.getD [])

/-! ## Chart renderer (`create_spark_graph_image`, main.py lines 140-260) -/

/-- `min(values)` for a non-empty Python list (the `[]` case is never used). -/
def py_min : List ℚ → ℚ
  | [] => 0
  | v :: vs => vs.foldl min v

/-- `max(values)` for a non-empty Python list (the `[]` case is never used). -/
def py_max : List ℚ → ℚ
  | [] => 0
  | v :: vs => vs.foldl max v

/-- The computed Y-axis geometry. -/
structure YBounds where
  padding : ℚ
  yMin : ℚ
  yMax : ℚ
deriving DecidableEq

/-- Lines 163-176 of `create_spark_graph_image`: dynamic Y-axis padding and
bounds (5% of the range or at least 0.5% of the price; 1% of the price for a
flat series). -/
def compute_y_bounds (values : List ℚ) : YBounds :=
  let minPrice := py_min values
  let maxPrice := py_max values
  let priceRange := maxPrice - minPrice
  let padding :=
    if priceRange > 0 then max (priceRange * 0.05) (minPrice * 0.005)
    else minPrice * 0.01
  { padding := padding, yMin := minPrice - padding, yMax := maxPrice + padding }

/-- The Y-axis bounds exactly as the specification words them (§4.6): from
`min_price − padding` to `max_price + padding`, where
`padding = max(0.05 × (max − min), 0.005 × min)` when the range is non-zero
and `0.01 × min` in the flat-price case.  Stated over the series minimum and
maximum, to be compared with `compute_y_bounds` (translated from the
source). -/
def spec_y_bounds (minPrice maxPrice : ℚ) : ℚ × ℚ :=
  let padding :=
    if maxPrice > minPrice then max ((maxPrice - minPrice) * 0.05) (minPrice * 0.005)
    else minPrice * 0.01
  (minPrice - padding, maxPrice + padding)

/-- Insert Python's `,` thousands separators into a reversed digit list. -/
def group_rev : List Char → List Char
  | a :: b :: c :: d :: rest => a :: b :: c :: ',' :: group_rev (d :: rest)
  | l => l

/-- Three-digit grouping of a digit string (Python's `,` format flag). -/
def group_digits (s : List Char) : List Char := (group_rev s.reverse).reverse

/-- Round a rational to the nearest integer, ties to even — the rounding
fixed-point float formatting performs, applied to the exact value (CPython
rounds the binary double, which agrees on exactly-representable values). -/
def round_half_even (q : ℚ) : ℤ :=
  let f := q.floor
  let frac := q - f
  if frac < 1/2 then f
  else if 1/2 < frac then f + 1
  else if f % 2 = 0 then f else f + 1

/-- Python fixed-point formatting `.2f` (and `,.2f` when `grouped`, the
currency format of line 243): sign taken from the value, magnitude rounded
to two decimals half-to-even, optional thousands grouping of the integer
part.  A negative value carries its own minus sign, also when the rounded
magnitude is zero. -/
def py_format_fixed2 (q : ℚ) (grouped : Bool) : String :=
  let m := if q < 0 then -q else q
  let cents := round_half_even (m * 100)
  let whole := (cents / 100).toNat
  let fracPart := (cents % 100).toNat
  let wholeStr :=
    if grouped then String.mk (group_digits (toString whole).toList) else toString whole
  (if q < 0 then "-" else "") ++ wholeStr ++ "." ++ pad2 (fracPart : ℤ)

/-- The drawing decisions of the renderer that the claims are about:
requested pixel size, title, Y-axis geometry and the price annotation.
`changePlusSign` records whether the change text gets the explicit leading
`+` (the `{"+" if price_change >= 0 else ""}` of line 244). -/
structure ChartImage where
  width : ℤ
  height : ℤ
  title : String
  yPadding : ℚ
  yMin : ℚ
  yMax : ℚ
  currentPrice : ℚ
  priceChange : ℚ
  priceChangePct : ℚ
  changeColor : String
  changePlusSign : Bool
  priceText : String
  changeText : String
deriving DecidableEq

/-- `create_spark_graph_image` (main.py lines 140-260).  Rasterization is
delegated to matplotlib and not modelled; the record collects the values
and annotation strings the source computes and passes to it (the f-strings
of lines 243-244 modelled by `py_format_fixed2` over the exact rationals).
`.error (.generic "division by zero")` models the `ZeroDivisionError` raised
at line 237 when the first close price is `0`. -/
def create_spark_graph_image (prices : List Bar) (ticker companyName : String)
    (size : ℤ × ℤ) : Except PyErr ChartImage :=
  let values := prices.map fun b => b.c
  match values with
  | [] => .error (.valueError "No price data available")
  | v0 :: _ =>
    let yb := compute_y_bounds values
    let currentPrice := values.getLastD 0
    let priceChange := values.getLastD 0 - v0
    if v0 = 0 then .error (.generic "division by zero")
    else
      let priceChangePct := (priceChange / v0) * 100
      let changeColor := if priceChange ≥ 0 then "#2ca02c" else "#d62728"
      .ok { width := size.1, height := size.2,
            title := ticker ++ " - " ++ companyName,
            yPadding := yb.padding, yMin := yb.yMin, yMax := yb.yMax,
            currentPrice := currentPrice, priceChange := priceChange,
            priceChangePct := priceChangePct, changeColor := changeColor,
            changePlusSign := if priceChange ≥ 0 then true else false,
            priceText := "$" ++ py_format_fixed2 currentPrice true,
            changeText := (if priceChange ≥ 0 then "+" else "")
              ++ py_format_fixed2 priceChange false
              ++ " (" ++ (if priceChangePct ≥ 0 then "+" else "")
              ++ py_format_fixed2 priceChangePct false ++ "%)" }

/-! ## HTTP handler (`generate_spark_graph`, main.py lines 263-331) -/

/-- A response body: a JSON error object or a PNG image. -/
inductive RespBody
  | jsonError (msg : String)
  | png (img : ChartImage)
deriving DecidableEq

/-- An HTTP response: status, body and the explicitly-set headers. -/
structure HttpResponse where
  status : ℕ
  body : RespBody
  headers : List (String × String)
deriving DecidableEq

/-- The environment configuration read at process start (main.py lines
16-18); `basicAuthUsername` has the default `"admin"` applied already. -/
structure Config where
  polygonApiKey : Option String
  basicAuthUsername : String
  basicAuthPassword : Option String
deriving DecidableEq

/-- The per-request inputs: `Authorization` header and query parameters. -/
structure HttpRequest where
  authHeader : Option String
  ticker : Option String
  duration : Option String
  size : Option String
deriving DecidableEq

/-- The external world a request observes: the current time and the two
upstream responses. -/
structure Upstream where
  now : ℤ
  companyResp : Option (ℕ × CompanyPayload)
  aggsResp : Except String AggsResponse

/-- The 401 challenge response (main.py lines 268-272). -/
def response_401 : HttpResponse :=
  ⟨401, .jsonError "Unauthorized", [("WWW-Authenticate", "Basic realm=\"Login Required\"")]⟩

/-- A bare JSON error response. -/
def err_response (status : ℕ) (msg : String) : HttpResponse :=
  ⟨status, .jsonError msg, []⟩

/-- The handler's `except requests.exceptions.HTTPError` clause
(main.py lines 323-329). -/
def http_error_response (code : ℕ) : HttpResponse :=
  if code = 403 then err_response 403 "Invalid Polygon.io API key"
  else if code = 404 then err_response 404 "Ticker not found"
  else err_response 500 "Error fetching stock data"

/-- Python truthiness test `if not v` on an environment variable. -/
def is_falsy : Option String → Bool
  | none => true
  | some s => s == ""

/-- The handler's `try` block together with its `except` clauses
(main.py lines 281-331), reached once authentication and the two
environment checks have passed.  The `match` error arms model the three
`except` clauses applied to whichever stage raised. -/
def handle_graph_request (cfg : Config) (req : HttpRequest) (up : Upstream) :
    HttpResponse :=
    let ticker := py_upper (req.ticker.getD "")
    let duration := py_lower (req.duration.getD "day")
    let sizeParam := req.size.getD "480x480"
    if ticker = "" then err_response 400 "Missing required parameter: ticker"
    else
      match parse_size sizeParam with
      | none => err_response 400 "Invalid size format. Use WIDTHxHEIGHT (e.g., 480x480)"
      | some (w, h) =>
        if w < 100 ∨ h < 100 ∨ w > 2000 ∨ h > 2000 then
          err_response 400 "Size must be between 100x100 and 2000x2000"
        else
          match get_duration_params up.now duration with
          | .error msg => err_response 400 msg
          | .ok (startDate, endDate, timespan, multiplier) =>
            let companyName := fetch_company_name ticker up.companyResp
            match fetch_stock_data cfg.polygonApiKey ticker up.now startDate endDate
                timespan multiplier up.aggsResp with
            | .error (.valueError msg) => err_response 400 msg
            | .error (.httpError code) => http_error_response code
            | .error (.generic msg) => err_response 500 ("Internal server error: " ++ msg)
            | .ok stockData =>
              match create_spark_graph_image stockData ticker companyName (w, h) with
              | .error (.valueError msg) => err_response 400 msg
              | .error (.httpError code) => http_error_response code
              | .error (.generic msg) => err_response 500 ("Internal server error: " ++ msg)
              | .ok img =>
                ⟨200, .png img,
                  [("Content-Type", "image/png"), ("Cache-Control", "public, max-age=300")]⟩

/-- `generate_spark_graph` (main.py lines 263-331): the full request
handler.  Authentication is checked first, then the two environment
variables, then the `try` block runs. -/
def generate_spark_graph (cfg : Config) (req : HttpRequest) (up : Upstream) :
    HttpResponse :=
  if ¬ verify_basic_auth req.authHeader cfg.basicAuthUsername cfg.basicAuthPassword then
    response_401
  else if is_falsy cfg.polygonApiKey then
    err_response 500 "POLYGON_API_KEY not configured"
  else if is_falsy cfg.basicAuthPassword then
    err_response 500 "BASIC_AUTH_PASSWORD not configured"
  else
    handle_graph_request cfg req up

/-! ## Concrete fixtures used by witnesses and counterexamples -/

/-- A fully-configured environment: API key present, username `admin`,
password `pw`. -/
def cfgGood : Config := ⟨some "key", "admin", some "pw"⟩

/-- `Basic` credentials for `admin:pw` (base64 of `admin:pw`). -/
def authGood : String := "Basic YWRtaW46cHc="

/-- Two ascending price bars. -/
def barsGood : List Bar := [⟨1700000000000, 100⟩, ⟨1700000300000, 110⟩]

/-- A healthy aggregates payload carrying `barsGood`. -/
def payloadGood : AggsPayload := ⟨some "OK", none, some 2, some barsGood⟩

/-- A healthy world: fixed clock, failed company lookup, good aggregates. -/
def upGood : Upstream := ⟨1700000000, none, .ok ⟨200, payloadGood⟩⟩

/-- A fully-valid request for `AAPL` with defaulted duration and size. -/
def reqGood : HttpRequest := ⟨some authGood, some "AAPL", none, none⟩

/-! ## Helper lemmas about the credential split -/

theorem splitColonOnce_of_not_mem (l : List Char) (h : ':' ∉ l) :
    splitColonOnce l = none := by
  induction l with
  | nil => rfl
  | cons c cs ih =>
    simp only [List.mem_cons, not_or] at h
    have hc : c ≠ ':' := fun hh => h.1 hh.symm
    simp [splitColonOnce, hc, ih h.2]

theorem splitColonOnce_append (u p : List Char) (h : ':' ∉ u) :
    splitColonOnce (u ++ ':' :: p) = some (u, p) := by
  induction u with
  | nil => simp [splitColonOnce]
  | cons c cs ih =>
    simp only [List.mem_cons, not_or] at h
    have hc : c ≠ ':' := fun hh => h.1 hh.symm
    simp [splitColonOnce, hc, ih h.2]

theorem splitColonOnce_fst (l : List Char) :
    ∀ u p, splitColonOnce l = some (u, p) → ':' ∉ u := by
  induction l with
  | nil => intro u p h; simp [splitColonOnce] at h
  | cons c cs ih =>
    intro u p h
    by_cases hc : c = ':'
    · subst hc
      simp [splitColonOnce] at h
      rcases h with ⟨rfl, rfl⟩
      simp
    · simp only [splitColonOnce, if_neg hc, Option.map_eq_some'] at h
      obtain ⟨⟨a, b⟩, hab, h2⟩ := h
      simp only [Prod.mk.injEq] at h2
      intro hmem
      rw [← h2.1] at hmem
      rcases List.mem_cons.mp hmem with hh | hh
      · exact hc hh.symm
      · exact ih a b hab hh

/-- Once authentication and both environment checks pass, the handler runs
its `try` block. -/
theorem generate_validated (cfg : Config) (req : HttpRequest) (up : Upstream)
    (hAuth : verify_basic_auth req.authHeader cfg.basicAuthUsername cfg.basicAuthPassword
      = true)
    (hKey : is_falsy cfg.polygonApiKey = false)
    (hPw : is_falsy cfg.basicAuthPassword = false) :
    generate_spark_graph cfg req up = handle_graph_request cfg req up := by
  unfold generate_spark_graph
  simp [hAuth, hKey, hPw]

/-! ## Claim C10 -/

/-- C10: the authenticator splits the decoded credential token at the first
colon only.  When the configured username is colon-free, a token of the form
`username:password` authenticates for every configured password, colons in
the password included (the password is compared intact); and when the
configured username itself contains a colon, no decoded token can ever
authenticate, because the piece before the first colon never contains one. -/
theorem C10_split_first_colon :
    (∀ username password : String, ':' ∉ username.toList →
      check_credentials (username ++ ":" ++ password) username (some password) = true)
    ∧ (∀ username : String, ':' ∈ username.toList →
      ∀ (credentials : String) (envPassword : Option String),
        check_credentials credentials username envPassword = false) := by
  constructor
  · intro u p hu
    have hsplit : (u ++ ":" ++ p).toList = u.toList ++ ':' :: p.toList := by
      show (u ++ ":" ++ p).data = u.data ++ ':' :: p.data
      simp [String.data_append]
    unfold check_credentials py_split_colon_1
    rw [hsplit, splitColonOnce_append _ _ hu]
    simp
  · intro u hu creds envP
    unfold check_credentials py_split_colon_1
    cases h : splitColonOnce creds.toList with
    | none => rfl
    | some q =>
      obtain ⟨a, b⟩ := q
      have ha : ':' ∉ a := splitColonOnce_fst creds.toList a b h
      have hne : String.mk a ≠ u := by
        intro hh
        rw [← hh] at hu
        exact ha hu
      simp [hne]

/-- Witness for C10: `admin` with password `se:cret` authenticates via the
token `admin:se:cret`, while a configured username `ad:min` rejects even the
exact token `ad:min:pw`. -/
theorem C10_split_first_colon_witness :
    check_credentials "admin:se:cret" "admin" (some "se:cret") = true
    ∧ check_credentials "ad:min:pw" "ad:min" (some "pw") = false := by
  constructor
  · exact C10_split_first_colon.1 "admin" "se:cret" (by decide)
  · exact C10_split_first_colon.2 "ad:min" (by decide) "ad:min:pw" (some "pw")

/-! ## Claim C4 -/

/-- C4: for every request whose `Authorization` header is missing, lacks the
`Basic ` scheme prefix, contains invalid base64, or decodes to a token
without a colon, the authenticator returns `false` (it never raises: every
exception is caught and mapped to `false`), and the endpoint responds `401`
with a `WWW-Authenticate: Basic` challenge header, regardless of the other
request parameters and of the upstream world. -/
theorem C4_malformed_auth_401 (cfg : Config) (req : HttpRequest) (up : Upstream)
    (h : req.authHeader = none
      ∨ ∃ hdr, req.authHeader = some hdr ∧
          (¬ py_startswith hdr "Basic "
            ∨ b64decodeUtf8 (py_drop hdr 6) = none
            ∨ ∃ creds, b64decodeUtf8 (py_drop hdr 6) = some creds ∧ ':' ∉ creds.toList)) :
    verify_basic_auth req.authHeader cfg.basicAuthUsername cfg.basicAuthPassword = false
    ∧ generate_spark_graph cfg req up = response_401 := by
  have hv : verify_basic_auth req.authHeader cfg.basicAuthUsername cfg.basicAuthPassword
      = false := by
    rcases h with h | ⟨hdr, hh, hcase⟩
    · rw [h]; rfl
    · rw [hh]
      unfold verify_basic_auth
      rcases hcase with hs | hb | ⟨creds, hc, hnc⟩
      · simp [hs]
      · by_cases hs : py_startswith hdr "Basic "
        · simp [hs, hb]
        · simp [hs]
      · by_cases hs : py_startswith hdr "Basic "
        · simp only [hs, not_true_eq_false, if_false, hc]
          unfold check_credentials py_split_colon_1
          rw [splitColonOnce_of_not_mem _ hnc]
          simp
        · simp [hs]
  refine ⟨hv, ?_⟩
  unfold generate_spark_graph
  simp [hv]

/-- Witness for C4 at a concrete malformed request: missing header. -/
theorem C4_malformed_auth_401_witness :
    generate_spark_graph cfgGood ⟨none, some "AAPL", none, none⟩ upGood = response_401 :=
  (C4_malformed_auth_401 cfgGood ⟨none, some "AAPL", none, none⟩ upGood (Or.inl rfl)).2

/-! ## Claim C3 -/

/-- C3: for each of the four duration keywords the window resolver returns
`end_time = now`, `start_time = now` minus the keyword's span, and exactly
the `(bar_timespan, bar_multiplier)` pair of the fixed table (`hour` →
`(minute, 1)` over 1 hour; `day` → `(minute, 5)` over 1 day; `week` →
`(hour, 1)` over 1 week; `month` → `(day, 1)` over 30 days).  Every other
keyword raises the `Invalid duration` `ValueError`, which the endpoint
surfaces as an HTTP 400 response. -/
theorem C3_duration_table :
    (∀ now : ℤ,
      get_duration_params now "hour" = .ok (now - 3600, now, .minute, 1)
      ∧ get_duration_params now "day" = .ok (now - 86400, now, .minute, 5)
      ∧ get_duration_params now "week" = .ok (now - 604800, now, .hour, 1)
      ∧ get_duration_params now "month" = .ok (now - 30 * 86400, now, .day, 1))
    ∧ (∀ (now : ℤ) (d : String),
        d ≠ "hour" → d ≠ "day" → d ≠ "week" → d ≠ "month" →
        get_duration_params now d = .error ("Invalid duration: " ++ d))
    ∧ (∀ (d msg : String),
        get_duration_params 1700000000 (py_lower d) = .error msg →
        generate_spark_graph cfgGood ⟨some authGood, some "AAPL", some d, none⟩ upGood
          = err_response 400 msg) := by
  refine ⟨fun now => ⟨rfl, rfl, rfl, rfl⟩, ?_, ?_⟩
  · intro now d h1 h2 h3 h4
    unfold get_duration_params duration_map
    simp [h1, h2, h3, h4]
  · intro d msg hd
    rw [generate_validated cfgGood ⟨some authGood, some "AAPL", some d, none⟩ upGood
      (show verify_basic_auth (some authGood) cfgGood.basicAuthUsername cfgGood.basicAuthPassword = true by decide)
      (by decide) (by decide)]
    simp only [handle_graph_request, upGood, cfgGood, Option.getD_some, Option.getD_none,
      show py_upper "AAPL" = "AAPL" from rfl,
      show parse_size "480x480" = some (480, 480) from rfl,
      show ("AAPL" : String) ≠ "" from by decide, hd]
    norm_num

/-- Witness for C3: the resolver and the endpoint at concrete inputs,
including an invalid keyword (`year`). -/
theorem C3_duration_table_witness :
    get_duration_params 1700000000 "week" = .ok (1699395200, 1700000000, .hour, 1)
    ∧ get_duration_params 1700000000 "year" = .error "Invalid duration: year"
    ∧ generate_spark_graph cfgGood ⟨some authGood, some "AAPL", some "year", none⟩ upGood
        = err_response 400 "Invalid duration: year" := by
  refine ⟨(C3_duration_table.1 1700000000).2.2.1, ?_, ?_⟩
  · exact C3_duration_table.2.1 1700000000 "year"
      (by decide) (by decide) (by decide) (by decide)
  · exact C3_duration_table.2.2 "year" "Invalid duration: year" rfl

/-! ## Helper lemmas about the renderer and the authenticator -/

/-- The renderer's Y-axis geometry agrees with the spec's formula over the
series minimum and maximum. -/
theorem compute_y_bounds_spec (values : List ℚ) :
    ((compute_y_bounds values).yMin, (compute_y_bounds values).yMax)
      = spec_y_bounds (py_min values) (py_max values) := by
  unfold compute_y_bounds spec_y_bounds
  simp only [gt_iff_lt, sub_pos]

/-- Evaluation of the renderer on a non-empty series with nonzero first
close. -/
theorem create_spark_graph_image_ok (prices : List Bar) (tk cn : String)
    (size : ℤ × ℤ) (v0 : ℚ) (vs : List ℚ)
    (hv : prices.map (fun b => b.c) = v0 :: vs) (h0 : v0 ≠ 0) :
    create_spark_graph_image prices tk cn size =
      .ok { width := size.1, height := size.2, title := tk ++ " - " ++ cn,
            yPadding := (compute_y_bounds (v0 :: vs)).padding,
            yMin := (compute_y_bounds (v0 :: vs)).yMin,
            yMax := (compute_y_bounds (v0 :: vs)).yMax,
            currentPrice := (v0 :: vs).getLastD 0,
            priceChange := (v0 :: vs).getLastD 0 - v0,
            priceChangePct := ((v0 :: vs).getLastD 0 - v0) / v0 * 100,
            changeColor := if (v0 :: vs).getLastD 0 - v0 ≥ 0 then "#2ca02c" else "#d62728",
            changePlusSign := if (v0 :: vs).getLastD 0 - v0 ≥ 0 then true else false,
            priceText := "$" ++ py_format_fixed2 ((v0 :: vs).getLastD 0) true,
            changeText := (if (v0 :: vs).getLastD 0 - v0 ≥ 0 then "+" else "")
              ++ py_format_fixed2 ((v0 :: vs).getLastD 0 - v0) false
              ++ " (" ++ (if ((v0 :: vs).getLastD 0 - v0) / v0 * 100 ≥ 0 then "+" else "")
              ++ py_format_fixed2 (((v0 :: vs).getLastD 0 - v0) / v0 * 100) false
              ++ "%)" } := by
  unfold create_spark_graph_image
  rw [hv]
  simp [h0]

/-- The credential check always fails when no password is configured. -/
theorem check_credentials_none_password (creds u : String) :
    check_credentials creds u none = false := by
  unfold check_credentials
  cases py_split_colon_1 creds with
  | none => rfl
  | some q =>
    obtain ⟨a, b⟩ := q
    simp

/-- The authenticator always fails when no password is configured. -/
theorem verify_basic_auth_none_password (ah : Option String) (u : String) :
    verify_basic_auth ah u none = false := by
  unfold verify_basic_auth
  cases ah with
  | none => rfl
  | some h =>
    by_cases hs : py_startswith h "Basic "
    · simp only [hs, not_true_eq_false, if_false]
      cases b64decodeUtf8 (py_drop h 6) with
      | none => rfl
      | some creds => exact check_credentials_none_password creds u
    · simp [hs]

/-! ## Claim C8 -/

/-- C8: before issuing the upstream aggregates request, `fetch_stock_data`
clamps `start_time` to no earlier than `now − 730` days: any earlier start
is replaced by `now − 730` days, any later start is left unchanged; and the
request always carries ascending sort order and a result limit of 50000. -/
theorem C8_free_tier_clamp (apiKey : Option String) (ticker : String)
    (now startDate endDate : ℤ) (timespan : Timespan) (multiplier : ℕ) :
    (startDate < now - 730 * 86400 →
      (build_aggs_request apiKey ticker now startDate endDate timespan multiplier).startDate
        = now - 730 * 86400)
    ∧ (now - 730 * 86400 ≤ startDate →
      (build_aggs_request apiKey ticker now startDate endDate timespan multiplier).startDate
        = startDate)
    ∧ (build_aggs_request apiKey ticker now startDate endDate timespan multiplier).sort
        = "asc"
    ∧ (build_aggs_request apiKey ticker now startDate endDate timespan multiplier).limit
        = 50000 := by
  refine ⟨fun h => ?_, fun h => ?_, rfl, rfl⟩
  · show (if startDate < now - 730 * 86400 then now - 730 * 86400 else startDate)
      = now - 730 * 86400
    rw [if_pos h]
  · show (if startDate < now - 730 * 86400 then now - 730 * 86400 else startDate)
      = startDate
    rw [if_neg (not_lt.mpr h)]

/-- Witness for C8: a start 800 days in the past is clamped to 730 days, a
start 10 days in the past is kept, alongside the fixed query parameters. -/
theorem C8_free_tier_clamp_witness :
    (build_aggs_request (some "key") "AAPL" 1700000000 (1700000000 - 800 * 86400)
      1700000000 .day 1).startDate = 1700000000 - 730 * 86400
    ∧ (build_aggs_request (some "key") "AAPL" 1700000000 (1700000000 - 10 * 86400)
      1700000000 .day 1).startDate = 1700000000 - 10 * 86400
    ∧ (build_aggs_request (some "key") "AAPL" 1700000000 (1700000000 - 10 * 86400)
      1700000000 .day 1).sort = "asc"
    ∧ (build_aggs_request (some "key") "AAPL" 1700000000 (1700000000 - 10 * 86400)
      1700000000 .day 1).limit = 50000 :=
  ⟨(C8_free_tier_clamp (some "key") "AAPL" 1700000000 (1700000000 - 800 * 86400)
      1700000000 .day 1).1 (by norm_num),
   (C8_free_tier_clamp (some "key") "AAPL" 1700000000 (1700000000 - 10 * 86400)
      1700000000 .day 1).2.1 (by norm_num),
   (C8_free_tier_clamp (some "key") "AAPL" 1700000000 (1700000000 - 10 * 86400)
      1700000000 .day 1).2.2.1,
   (C8_free_tier_clamp (some "key") "AAPL" 1700000000 (1700000000 - 10 * 86400)
      1700000000 .day 1).2.2.2⟩

/-! ## Claim C2 -/

/-- C2: for every non-empty price series the renderer's Y-axis bounds are
`min_price − padding` and `max_price + padding`, with
`padding = max(0.05·(max−min), 0.005·min)` when `max > min` and
`padding = 0.01·min` when the series is flat; in particular `[100, 100,
100]` gives padding 1 and bounds `[99, 101]`, and `[100, 110]` gives
padding 0.5 and bounds `[99.5, 110.5]`. -/
theorem C2_y_axis_bounds :
    (∀ (prices : List Bar) (tk cn : String) (size : ℤ × ℤ) (img : ChartImage),
      create_spark_graph_image prices tk cn size = .ok img →
      (img.yMin, img.yMax)
        = spec_y_bounds (py_min (prices.map fun b => b.c))
            (py_max (prices.map fun b => b.c)))
    ∧ compute_y_bounds [100, 100, 100] = ⟨1, 99, 101⟩
    ∧ compute_y_bounds [100, 110] = ⟨1/2, 199/2, 221/2⟩ := by
  refine ⟨?_,
    by norm_num [compute_y_bounds, py_min, py_max, List.foldl, min_def, max_def],
    by norm_num [compute_y_bounds, py_min, py_max, List.foldl, min_def, max_def]⟩
  intro prices tk cn size img h
  cases hv : prices.map (fun b => b.c) with
  | nil =>
    unfold create_spark_graph_image at h
    rw [hv] at h
    simp at h
  | cons v0 vs =>
    by_cases h0 : v0 = 0
    · unfold create_spark_graph_image at h
      rw [hv] at h
      simp [h0] at h
    · rw [create_spark_graph_image_ok prices tk cn size v0 vs hv h0] at h
      injection h with h
      subst h
      exact compute_y_bounds_spec (v0 :: vs)

/-- Witness for C2: the renderer on the flat three-bar series at 100 yields
bounds `[99, 101]`. -/
theorem C2_y_axis_bounds_witness :
    ∃ img, create_spark_graph_image [⟨0, 100⟩, ⟨1, 100⟩, ⟨2, 100⟩] "T" "N" (480, 480)
        = .ok img
      ∧ (img.yMin, img.yMax) = spec_y_bounds 100 100 ∧ (img.yMin, img.yMax) = (99, 101) := by
  obtain ⟨img, himg⟩ : ∃ img,
      create_spark_graph_image [⟨0, 100⟩, ⟨1, 100⟩, ⟨2, 100⟩] "T" "N" (480, 480) = .ok img :=
    ⟨_, rfl⟩
  have h2 := C2_y_axis_bounds.1 _ "T" "N" (480, 480) img himg
  have hmm : py_min ([⟨0, 100⟩, ⟨1, 100⟩, ⟨2, 100⟩].map fun b => Bar.c b) = 100
      ∧ py_max ([⟨0, 100⟩, ⟨1, 100⟩, ⟨2, 100⟩].map fun b => Bar.c b) = 100 := by
    norm_num [py_min, py_max, List.foldl, min_def, max_def]
  refine ⟨img, himg, ?_, ?_⟩
  · rw [h2, hmm.1, hmm.2]
  · rw [h2, hmm.1, hmm.2]
    norm_num [spec_y_bounds]

/-! ## Claim C9 -/

/-- C9 (amended): for every non-empty price series whose first close is
nonzero, the renderer's annotation shows the latest close formatted as
currency with two decimals (`$` plus the thousands-grouped `,.2f`
rendering), a point change `latest − first`, a percentage change
`(latest − first)/first × 100`, each rendered with an explicit sign (the
point change gets the explicit `+` prefix exactly when it is non-negative,
negative values render their own minus sign; the percentage carries the
`+.2f` always-signed rendering), and the change text is colored green
(`#2ca02c`) for a non-negative change and red (`#d62728`) for a negative
one.  A series whose first close is zero instead raises
`ZeroDivisionError` and renders nothing. -/
theorem C9_price_change_text (prices : List Bar) (tk cn : String) (size : ℤ × ℤ)
    (v0 : ℚ) (vs : List ℚ) (hv : prices.map (fun b => b.c) = v0 :: vs) :
    (v0 ≠ 0 → ∃ img, create_spark_graph_image prices tk cn size = .ok img
      ∧ img.currentPrice = (v0 :: vs).getLastD 0
      ∧ img.priceChange = (v0 :: vs).getLastD 0 - v0
      ∧ img.priceChangePct = ((v0 :: vs).getLastD 0 - v0) / v0 * 100
      ∧ (img.changePlusSign = true ↔ 0 ≤ img.priceChange)
      ∧ img.changeColor = (if 0 ≤ img.priceChange then "#2ca02c" else "#d62728")
      ∧ img.priceText = "$" ++ py_format_fixed2 img.currentPrice true
      ∧ img.changeText = (if 0 ≤ img.priceChange then "+" else "")
          ++ py_format_fixed2 img.priceChange false
          ++ " (" ++ (if 0 ≤ img.priceChangePct then "+" else "")
          ++ py_format_fixed2 img.priceChangePct false ++ "%)")
    ∧ (v0 = 0 → create_spark_graph_image prices tk cn size
        = .error (.generic "division by zero")) := by
  constructor
  · intro h0
    refine ⟨_, create_spark_graph_image_ok prices tk cn size v0 vs hv h0,
      rfl, rfl, rfl, ?_, ?_, rfl, rfl⟩
    · by_cases hc : (0 : ℚ) ≤ (v0 :: vs).getLastD 0 - v0
      · simp [hc]
      · simp [hc]
    · by_cases hc : (0 : ℚ) ≤ (v0 :: vs).getLastD 0 - v0
      · simp [hc]
      · simp [hc]
  · intro h0
    unfold create_spark_graph_image
    rw [hv]
    simp [h0]

/-- C9 counterexample: the non-empty two-bar series whose first close is `0`
renders no annotation at all — the percentage-change division raises
`ZeroDivisionError` (surfaced as a 500), refuting the claim for that
series. -/
theorem C9_price_change_text_cex :
    create_spark_graph_image [⟨0, 0⟩, ⟨60000, 1⟩] "TICK" "Name" (480, 480)
      = .error (.generic "division by zero") := rfl

/-- Witness for C9 on the rising series `[100, 110]`. -/
theorem C9_price_change_text_witness :
    ∃ img, create_spark_graph_image barsGood "AAPL" "Apple Inc." (480, 480) = .ok img
      ∧ img.currentPrice = ([(100 : ℚ), 110]).getLastD 0
      ∧ img.priceChange = ([(100 : ℚ), 110]).getLastD 0 - 100
      ∧ img.priceChangePct = (([(100 : ℚ), 110]).getLastD 0 - 100) / 100 * 100
      ∧ (img.changePlusSign = true ↔ 0 ≤ img.priceChange)
      ∧ img.changeColor = (if 0 ≤ img.priceChange then "#2ca02c" else "#d62728")
      ∧ img.priceText = "$" ++ py_format_fixed2 img.currentPrice true
      ∧ img.changeText = (if 0 ≤ img.priceChange then "+" else "")
          ++ py_format_fixed2 img.priceChange false
          ++ " (" ++ (if 0 ≤ img.priceChangePct then "+" else "")
          ++ py_format_fixed2 img.priceChangePct false ++ "%)" :=
  (C9_price_change_text barsGood "AAPL" "Apple Inc." (480, 480) 100 [110] rfl).1
    (by norm_num)

/-! ## Claim C6 -/

/-- C6: `fetch_company_name` never raises and never aborts the request: on
every failure (exception, non-200 status, payload status other than `OK`,
missing/falsy results, missing name field) it returns the ticker symbol
itself, and on success it returns the upstream name; consequently a failed
company lookup still allows a 200 image response when price data is
available, with the ticker as the title's company-name component. -/
theorem C6_company_name_fallback :
    (∀ ticker : String, fetch_company_name ticker none = ticker)
    ∧ (∀ (ticker : String) (code : ℕ) (p : CompanyPayload), code ≠ 200 →
        fetch_company_name ticker (some (code, p)) = ticker)
    ∧ (∀ (ticker : String) (code : ℕ) (p : CompanyPayload), p.status ≠ some "OK" →
        fetch_company_name ticker (some (code, p)) = ticker)
    ∧ (∀ (ticker : String) (code : ℕ) (p : CompanyPayload), p.results = none →
        fetch_company_name ticker (some (code, p)) = ticker)
    ∧ (∀ (ticker : String) (r : CompanyResults), r.name = none →
        fetch_company_name ticker (some (200, ⟨some "OK", some r⟩)) = ticker)
    ∧ (∀ (ticker nm : String) (r : CompanyResults), r.name = some nm →
        fetch_company_name ticker (some (200, ⟨some "OK", some r⟩)) = nm)
    ∧ (∀ companyResp, fetch_company_name "AAPL" companyResp = "AAPL" →
        generate_spark_graph cfgGood reqGood ⟨1700000000, companyResp, .ok ⟨200, payloadGood⟩⟩
          = ⟨200,
              .png ⟨480, 480, "AAPL - AAPL", 1/2, 199/2, 221/2, 110, 10, 10, "#2ca02c", true,
                "$" ++ py_format_fixed2 110 true,
                "+" ++ py_format_fixed2 10 false ++ " (" ++ "+" ++ py_format_fixed2 10 false
                  ++ "%)"⟩,
              [("Content-Type", "image/png"), ("Cache-Control", "public, max-age=300")]⟩) := by
  refine ⟨fun t => rfl, ?_, ?_, ?_, ?_, ?_, ?_⟩
  · intro t code p hc
    unfold fetch_company_name
    simp [hc]
  · intro t code p hs
    by_cases hc : code = 200
    · subst hc
      have hcnd : ¬(p.status = some "OK" ∧ p.results ≠ none) := fun hh => hs hh.1
      simp [fetch_company_name, hcnd]
    · simp [fetch_company_name, hc]
  · intro t code p hr
    by_cases hc : code = 200
    · subst hc
      have hcnd : ¬(p.status = some "OK" ∧ p.results ≠ none) := fun hh => hh.2 hr
      simp [fetch_company_name, hcnd]
    · simp [fetch_company_name, hc]
  · intro t r hn
    simp [fetch_company_name, hn]
  · intro t nm r hn
    simp [fetch_company_name, hn]
  · intro cr hcr
    have hcreate : create_spark_graph_image barsGood "AAPL" "AAPL" (480, 480)
        = .ok ⟨480, 480, "AAPL - AAPL", 1/2, 199/2, 221/2, 110, 10, 10, "#2ca02c", true,
                "$" ++ py_format_fixed2 110 true,
                "+" ++ py_format_fixed2 10 false ++ " (" ++ "+" ++ py_format_fixed2 10 false
                  ++ "%)"⟩ := by
      rw [create_spark_graph_image_ok barsGood "AAPL" "AAPL" (480, 480) 100 [110] rfl
        (by norm_num)]
      simp only [Except.ok.injEq, ChartImage.mk.injEq]
      norm_num [compute_y_bounds, py_min, py_max, List.foldl, min_def, max_def]
      decide
    rw [generate_validated cfgGood reqGood ⟨1700000000, cr, .ok ⟨200, payloadGood⟩⟩
      (show verify_basic_auth (some authGood) cfgGood.basicAuthUsername
        cfgGood.basicAuthPassword = true by decide)
      (by decide) (by decide)]
    unfold handle_graph_request
    simp only [reqGood, Option.getD_some, Option.getD_none,
      show py_upper "AAPL" = "AAPL" from rfl, show py_lower "day" = "day" from rfl,
      show ("AAPL" : String) ≠ "" from by decide,
      show parse_size "480x480" = some (480, 480) from rfl,
      show ¬((480 : ℤ) < 100 ∨ (480 : ℤ) < 100 ∨ (480 : ℤ) > 2000 ∨ (480 : ℤ) > 2000)
        from by norm_num,
      show get_duration_params 1700000000 "day"
        = Except.ok (1700000000 - 86400, 1700000000, Timespan.minute, 5) from rfl,
      show cfgGood.polygonApiKey = some "key" from rfl,
      show fetch_stock_data (some "key") "AAPL" 1700000000 (1700000000 - 86400) 1700000000
        Timespan.minute 5 (Except.ok ⟨200, payloadGood⟩) = Except.ok barsGood from rfl,
      hcr, hcreate]
    simp

/-- Witness for C6: with no company response at all (`none`, the exception
case) and healthy price data, the endpoint still returns the 200 PNG titled
`AAPL - AAPL`. -/
theorem C6_company_name_fallback_witness :
    generate_spark_graph cfgGood reqGood ⟨1700000000, none, .ok ⟨200, payloadGood⟩⟩
      = ⟨200, .png ⟨480, 480, "AAPL - AAPL", 1/2, 199/2, 221/2, 110, 10, 10, "#2ca02c", true,
                "$" ++ py_format_fixed2 110 true,
                "+" ++ py_format_fixed2 10 false ++ " (" ++ "+" ++ py_format_fixed2 10 false
                  ++ "%)"⟩,
          [("Content-Type", "image/png"), ("Cache-Control", "public, max-age=300")]⟩ :=
  C6_company_name_fallback.2.2.2.2.2.2 none (C6_company_name_fallback.1 "AAPL")

/-! ## Claim C7 -/

/-- C7: the `size` parameter is accepted iff it parses as `WIDTHxHEIGHT`
with integer components, both within `[100, 2000]`: an unparsable string
yields 400 `Invalid size format`, a parsed pair with a component out of
bounds yields 400 with the size-bounds message, an in-bounds pair proceeds
to a 200 image of exactly that size (given healthy upstream data), the
default `480x480` parses to `width = height = 480`, and Python's
digit-grouping underscores are accepted (`4_80x480` parses as `480x480`).
The unparsable clause is stated for ASCII size strings: `int()` would also
accept non-ASCII Unicode decimal digits, which the embedding does not
model. -/
theorem C7_size_validation :
    (∀ s : String, (s.toList.all fun c => c.toNat < 128) = true → parse_size s = none →
      generate_spark_graph cfgGood ⟨some authGood, some "AAPL", none, some s⟩ upGood
        = err_response 400 "Invalid size format. Use WIDTHxHEIGHT (e.g., 480x480)")
    ∧ (∀ (s : String) (w h : ℤ), parse_size s = some (w, h) →
        (w < 100 ∨ h < 100 ∨ w > 2000 ∨ h > 2000) →
        generate_spark_graph cfgGood ⟨some authGood, some "AAPL", none, some s⟩ upGood
          = err_response 400 "Size must be between 100x100 and 2000x2000")
    ∧ (∀ (s : String) (w h : ℤ), parse_size s = some (w, h) →
        ¬ (w < 100 ∨ h < 100 ∨ w > 2000 ∨ h > 2000) →
        ∃ img,
          generate_spark_graph cfgGood ⟨some authGood, some "AAPL", none, some s⟩ upGood
            = ⟨200, .png img,
                [("Content-Type", "image/png"), ("Cache-Control", "public, max-age=300")]⟩
          ∧ img.width = w ∧ img.height = h)
    ∧ parse_size "480x480" = some (480, 480)
    ∧ parse_size "4_80x480" = some (480, 480) := by
  refine ⟨?_, ?_, ?_, rfl, rfl⟩
  · intro s _ hs
    rw [generate_validated cfgGood ⟨some authGood, some "AAPL", none, some s⟩ upGood
      (show verify_basic_auth (some authGood) cfgGood.basicAuthUsername
        cfgGood.basicAuthPassword = true by decide)
      (by decide) (by decide)]
    unfold handle_graph_request
    simp only [Option.getD_some, Option.getD_none,
      show py_upper "AAPL" = "AAPL" from rfl,
      show ("AAPL" : String) ≠ "" from by decide, hs]
    rfl
  · intro s w h hs hb
    rw [generate_validated cfgGood ⟨some authGood, some "AAPL", none, some s⟩ upGood
      (show verify_basic_auth (some authGood) cfgGood.basicAuthUsername
        cfgGood.basicAuthPassword = true by decide)
      (by decide) (by decide)]
    unfold handle_graph_request
    simp only [Option.getD_some, Option.getD_none,
      show py_upper "AAPL" = "AAPL" from rfl,
      show ("AAPL" : String) ≠ "" from by decide, hs]
    rw [if_pos hb]
    simp
  · intro s w h hs hb
    rw [generate_validated cfgGood ⟨some authGood, some "AAPL", none, some s⟩ upGood
      (show verify_basic_auth (some authGood) cfgGood.basicAuthUsername
        cfgGood.basicAuthPassword = true by decide)
      (by decide) (by decide)]
    unfold handle_graph_request
    simp only [Option.getD_some, Option.getD_none, upGood,
      show py_upper "AAPL" = "AAPL" from rfl, show py_lower "day" = "day" from rfl,
      show ("AAPL" : String) ≠ "" from by decide, hs]
    rw [if_neg hb]
    simp only [
      show get_duration_params 1700000000 "day"
        = Except.ok (1700000000 - 86400, 1700000000, Timespan.minute, 5) from rfl,
      show cfgGood.polygonApiKey = some "key" from rfl,
      show fetch_company_name "AAPL" none = "AAPL" from rfl,
      show fetch_stock_data (some "key") "AAPL" 1700000000 (1700000000 - 86400) 1700000000
        Timespan.minute 5 (Except.ok ⟨200, payloadGood⟩) = Except.ok barsGood from rfl,
      create_spark_graph_image_ok barsGood "AAPL" "AAPL" (w, h) 100 [110] rfl (by norm_num),
      if_false]
    exact ⟨_, rfl, rfl, rfl⟩

/-- Witness for C7 at concrete sizes: an unparsable size, an out-of-bounds
size, and the accepted default. -/
theorem C7_size_validation_witness :
    generate_spark_graph cfgGood ⟨some authGood, some "AAPL", none, some "abc"⟩ upGood
      = err_response 400 "Invalid size format. Use WIDTHxHEIGHT (e.g., 480x480)"
    ∧ generate_spark_graph cfgGood ⟨some authGood, some "AAPL", none, some "50x480"⟩ upGood
      = err_response 400 "Size must be between 100x100 and 2000x2000"
    ∧ (∃ img,
        generate_spark_graph cfgGood ⟨some authGood, some "AAPL", none, some "480x480"⟩ upGood
          = ⟨200, .png img,
              [("Content-Type", "image/png"), ("Cache-Control", "public, max-age=300")]⟩
        ∧ img.width = 480 ∧ img.height = 480)
    ∧ ∃ img,
        generate_spark_graph cfgGood ⟨some authGood, some "AAPL", none, some "4_80x480"⟩ upGood
          = ⟨200, .png img,
              [("Content-Type", "image/png"), ("Cache-Control", "public, max-age=300")]⟩
        ∧ img.width = 480 ∧ img.height = 480 :=
  ⟨C7_size_validation.1 "abc" (by decide) rfl,
   C7_size_validation.2.1 "50x480" 50 480 rfl (by norm_num),
   C7_size_validation.2.2.1 "480x480" 480 480 rfl (by norm_num),
   C7_size_validation.2.2.1 "4_80x480" 480 480 rfl (by norm_num)⟩

/-! ## Claim C1 -/

/-- A 4xx/5xx upstream status makes `fetch_stock_data` raise the
`HTTPError` carrying the status code. -/
theorem fetch_stock_data_transfer (apiKey : Option String) (ticker : String)
    (now startDate endDate : ℤ) (ts : Timespan) (mult : ℕ) (resp : AggsResponse)
    (h4 : 400 ≤ resp.statusCode) (h6 : resp.statusCode < 600) :
    fetch_stock_data apiKey ticker now startDate endDate ts mult (.ok resp)
      = .error (.httpError resp.statusCode) := by
  have hne : resp.statusCode ≠ 200 := by omega
  have hr : raise_for_status_raises resp.statusCode = true := by
    unfold raise_for_status_raises
    simp only [Bool.or_eq_true, Bool.and_eq_true, decide_eq_true_eq]
    omega
  simp only [fetch_stock_data]
  rw [if_pos ⟨hne, hr⟩]

/-- C1 (amended): `fetch_stock_data` classifies each upstream aggregates
response into exactly one outcome, but the transfer-error arm covers only
4xx/5xx statuses, not every non-200 status — `raise_for_status` is a no-op
outside 400-599, so such a status falls through to the payload
classification.  In detail: a 4xx/5xx status raises the transfer error
carrying the status code, which the handler maps to 403 `Invalid Polygon.io
API key` for 403, 404 `Ticker not found` for 404, and a generic 500
otherwise; for a response reaching payload classification, a payload with
status `"ERROR"` raises a domain error (HTTP 400) carrying the upstream
error message; a payload with status `"OK"` and `resultsCount` 0 raises a
domain error mentioning the ticker and `no recent trading activity`; any
other payload with a missing or empty results array raises a domain error
whose message embeds a snippet of the serialized payload truncated to at
most 200 characters; otherwise the results list is returned. -/
theorem C1_fetch_classification (apiKey : Option String) (ticker : String)
    (now startDate endDate : ℤ) (ts : Timespan) (mult : ℕ) (resp : AggsResponse) :
    (400 ≤ resp.statusCode → resp.statusCode < 600 →
      fetch_stock_data apiKey ticker now startDate endDate ts mult (.ok resp)
        = .error (.httpError resp.statusCode))
    ∧ http_error_response 403 = err_response 403 "Invalid Polygon.io API key"
    ∧ http_error_response 404 = err_response 404 "Ticker not found"
    ∧ (∀ code : ℕ, code ≠ 403 → code ≠ 404 →
        http_error_response code = err_response 500 "Error fetching stock data")
    ∧ (∀ (code : ℕ) (p : AggsPayload), 400 ≤ code → code < 600 →
        generate_spark_graph cfgGood reqGood ⟨1700000000, none, .ok ⟨code, p⟩⟩
          = http_error_response code)
    ∧ (resp.statusCode = 200 ∨ raise_for_status_raises resp.statusCode = false →
        ((resp.payload.status = some "ERROR" →
          fetch_stock_data apiKey ticker now startDate endDate ts mult (.ok resp)
            = .error (.valueError
                ("Polygon API error: " ++ resp.payload.error.getD "Unknown error")))
        ∧ (resp.payload.status = some "OK" → resp.payload.resultsCount.getD 0 = 0 →
          fetch_stock_data apiKey ticker now startDate endDate ts mult (.ok resp)
            = .error (.valueError ("No data available for " ++ ticker
                ++ ". The market might be closed or this ticker has no recent trading activity.")))
        ∧ (resp.payload.status ≠ some "ERROR" →
            ¬ (resp.payload.status = some "OK" ∧ resp.payload.resultsCount.getD 0 = 0) →
            resp.payload.results.getD [] = [] →
            fetch_stock_data apiKey ticker now startDate endDate ts mult (.ok resp)
              = .error (.valueError ("No data available for " ++ ticker ++ " from "
                  ++ fmt_date (build_aggs_request apiKey ticker now startDate endDate ts
                        mult).startDate
                  ++ " to " ++ fmt_date (build_aggs_request apiKey ticker now startDate endDate
                        ts mult).endDate
                  ++ ". Response: " ++ py_slice (json_dumps_aggs resp.payload) 200)))
        ∧ (resp.payload.status ≠ some "ERROR" →
            ¬ (resp.payload.status = some "OK" ∧ resp.payload.resultsCount.getD 0 = 0) →
            resp.payload.results.getD [] ≠ [] →
            fetch_stock_data apiKey ticker now startDate endDate ts mult (.ok resp)
              = .ok (resp.payload.results.getD []))))
    ∧ (∀ p : AggsPayload, (py_slice (json_dumps_aggs p) 200).length ≤ 200) := by
  have hnr : (resp.statusCode = 200 ∨ raise_for_status_raises resp.statusCode = false) →
      ¬ (resp.statusCode ≠ 200 ∧ raise_for_status_raises resp.statusCode = true) := by
    intro h hc
    rcases h with h | h
    · exact hc.1 h
    · rw [h] at hc
      exact Bool.false_ne_true hc.2
  refine ⟨fetch_stock_data_transfer apiKey ticker now startDate endDate ts mult resp,
    rfl, rfl, ?_, ?_, ?_, ?_⟩
  · intro code h3 h4
    unfold http_error_response
    rw [if_neg h3, if_neg h4]
  · intro code p h4 h6
    rw [generate_validated cfgGood reqGood ⟨1700000000, none, .ok ⟨code, p⟩⟩
      (show verify_basic_auth (some authGood) cfgGood.basicAuthUsername
        cfgGood.basicAuthPassword = true by decide)
      (by decide) (by decide)]
    unfold handle_graph_request
    simp only [reqGood, Option.getD_some, Option.getD_none,
      show py_upper "AAPL" = "AAPL" from rfl, show py_lower "day" = "day" from rfl,
      show ("AAPL" : String) ≠ "" from by decide,
      show parse_size "480x480" = some (480, 480) from rfl,
      show ¬((480 : ℤ) < 100 ∨ (480 : ℤ) < 100 ∨ (480 : ℤ) > 2000 ∨ (480 : ℤ) > 2000)
        from by norm_num,
      show get_duration_params 1700000000 "day"
        = Except.ok (1700000000 - 86400, 1700000000, Timespan.minute, 5) from rfl,
      show cfgGood.polygonApiKey = some "key" from rfl,
      fetch_stock_data_transfer (some "key") "AAPL" 1700000000 (1700000000 - 86400)
        1700000000 Timespan.minute 5 ⟨code, p⟩ h4 h6]
    simp
  · intro hno
    have hni := hnr hno
    refine ⟨?_, ?_, ?_, ?_⟩
    · intro herr
      simp only [fetch_stock_data]
      rw [if_neg hni, if_pos herr]
    · intro hok hrc
      simp only [fetch_stock_data]
      rw [if_neg hni, if_neg (by simp [hok]), if_pos ⟨hok, hrc⟩]
    · intro h1 h2 h3
      simp only [fetch_stock_data]
      rw [if_neg hni, if_neg h1, if_neg h2, if_pos h3]
    · intro h1 h2 h3
      simp only [fetch_stock_data]
      rw [if_neg hni, if_neg h1, if_neg h2, if_neg h3]
  · intro p
    show ((json_dumps_aggs p).toList.take 200).length ≤ 200
    rw [List.length_take]
    exact min_le_left _ _

/-- C1 counterexample: a non-200 response (status 204) whose payload is
healthy is not turned into a transfer error — `raise_for_status` does not
raise outside 4xx/5xx — so `fetch_stock_data` returns the results list,
refuting the claim that every non-200 status raises a transfer error. -/
theorem C1_fetch_classification_cex :
    fetch_stock_data (some "key") "AAPL" 1700000000 1699913600 1700000000 .minute 5
      (.ok ⟨204, payloadGood⟩) = .ok barsGood := rfl

/-- Witness for C1: a 403 response raises the transfer error, an `ERROR`
payload raises the domain error with the upstream message, and the endpoint
maps a 404 upstream status to its 404 response. -/
theorem C1_fetch_classification_witness :
    fetch_stock_data (some "key") "AAPL" 1700000000 1699913600 1700000000 .minute 5
      (.ok ⟨403, payloadGood⟩) = .error (.httpError 403)
    ∧ fetch_stock_data (some "key") "AAPL" 1700000000 1699913600 1700000000 .minute 5
      (.ok ⟨200, ⟨some "ERROR", some "boom", none, none⟩⟩)
      = .error (.valueError
          ("Polygon API error: " ++ (some "boom" : Option String).getD "Unknown error"))
    ∧ generate_spark_graph cfgGood reqGood ⟨1700000000, none, .ok ⟨404, payloadGood⟩⟩
      = err_response 404 "Ticker not found" := by
  refine ⟨(C1_fetch_classification (some "key") "AAPL" 1700000000 1699913600 1700000000
      .minute 5 ⟨403, payloadGood⟩).1 (by norm_num) (by norm_num), ?_, ?_⟩
  · exact ((C1_fetch_classification (some "key") "AAPL" 1700000000 1699913600 1700000000
      .minute 5 ⟨200, ⟨some "ERROR", some "boom", none, none⟩⟩).2.2.2.2.2.1
      (Or.inl rfl)).1 rfl
  · have h := (C1_fetch_classification (some "key") "AAPL" 1700000000 1699913600 1700000000
      .minute 5 ⟨404, payloadGood⟩).2.2.2.2.1 404 payloadGood (by norm_num) (by norm_num)
    rw [h]
    exact (C1_fetch_classification (some "key") "AAPL" 1700000000 1699913600 1700000000
      .minute 5 ⟨404, payloadGood⟩).2.2.1

/-! ## Claim C5 -/

/-- C5 (amended): when `POLYGON_API_KEY` is missing (unset or empty), every
request that passes authentication is answered 500 with
`POLYGON_API_KEY not configured`; but when `BASIC_AUTH_PASSWORD` is unset,
authentication can never succeed — the password is compared against the
absent value — so every request is answered 401 `Unauthorized`, and the 500
`BASIC_AUTH_PASSWORD not configured` response requires the password to be
set to the empty string. -/
theorem C5_missing_secret (cfg : Config) (req : HttpRequest) (up : Upstream) :
    (cfg.basicAuthPassword = none →
      generate_spark_graph cfg req up = response_401)
    ∧ (verify_basic_auth req.authHeader cfg.basicAuthUsername cfg.basicAuthPassword = true →
        is_falsy cfg.polygonApiKey = true →
        generate_spark_graph cfg req up = err_response 500 "POLYGON_API_KEY not configured")
    ∧ (verify_basic_auth req.authHeader cfg.basicAuthUsername cfg.basicAuthPassword = true →
        is_falsy cfg.polygonApiKey = false →
        is_falsy cfg.basicAuthPassword = true →
        generate_spark_graph cfg req up
          = err_response 500 "BASIC_AUTH_PASSWORD not configured") := by
  refine ⟨?_, ?_, ?_⟩
  · intro hp
    unfold generate_spark_graph
    rw [hp, verify_basic_auth_none_password]
    simp
  · intro hAuth hKey
    unfold generate_spark_graph
    simp [hAuth, hKey]
  · intro hAuth hKey hPw
    unfold generate_spark_graph
    simp [hAuth, hKey, hPw]

/-- C5 counterexample: with `BASIC_AUTH_PASSWORD` unset and everything else
valid (well-formed matching credentials, API key present, healthy
upstream), the endpoint answers 401 Unauthorized — not the claimed 500
naming the missing variable, which is unreachable in that configuration. -/
theorem C5_missing_secret_cex :
    generate_spark_graph ⟨some "key", "admin", none⟩ reqGood upGood = response_401 := rfl

/-- Witness for C5: a missing API key yields the 500 for authenticated
requests, and an empty-string password yields the password 500 for a
request authenticating with an empty password. -/
theorem C5_missing_secret_witness :
    generate_spark_graph ⟨none, "admin", some "pw"⟩ reqGood upGood
      = err_response 500 "POLYGON_API_KEY not configured"
    ∧ generate_spark_graph ⟨some "key", "admin", some ""⟩
        ⟨some "Basic YWRtaW46", some "AAPL", none, none⟩ upGood
      = err_response 500 "BASIC_AUTH_PASSWORD not configured" := by
  constructor
  · exact (C5_missing_secret ⟨none, "admin", some "pw"⟩ reqGood upGood).2.1
      (show verify_basic_auth (some authGood) "admin" (some "pw") = true by decide) rfl
  · exact (C5_missing_secret ⟨some "key", "admin", some ""⟩
      ⟨some "Basic YWRtaW46", some "AAPL", none, none⟩ upGood).2.2
      (show verify_basic_auth (some "Basic YWRtaW46") "admin" (some "") = true by decide)
      rfl rfl

end SparkGraph
